import Mathlib

/-!
Verification of the widget-resizer feature (ckeditor5-widget snapshot).

The development shallowly embeds the three source files
`src/widgetresizer.js`, `src/resizecontext.js` and
`src/widgetresizer/resizer.js`.  The repository snapshot does not contain
`src/resizertopbound.js`, `src/utils.js` (`getAbsoluteBoundaryPoint`) nor
`src/widgetresizer/resizerstate.js`; those collaborators are modelled from
the spec and each such definition says so in its doc comment.

JavaScript particulars kept by the embedding: an object-property lookup
with an unknown key yields `undefined` (not an error), template
interpolation renders `undefined` as the string "undefined", and division
of a positive finite number by zero yields `Infinity`.
-/

/-- JavaScript number results relevant to the embedded code: a finite
rational, the two infinities, or `NaN`. -/
inductive JsNum where
  | num (q : ℚ)
  | inf
  | negInf
  | nan
deriving DecidableEq, Repr

/-- JavaScript division of two finite numbers: `a / 0` is `Infinity` for
positive `a`, `-Infinity` for negative `a`, and `NaN` for `0 / 0`. -/
def jsDivQ (a b : ℚ) : JsNum :=
  if b = 0 then
    if 0 < a then JsNum.inf
    else if a < 0 then JsNum.negInf
    else JsNum.nan
  else JsNum.num (a / b)

/-- JavaScript `Math.round`: half-up rounding (halves go toward plus
infinity). -/
def jsRound (q : ℚ) : ℤ := ⌊q + 1 / 2⌋

/-- Rendering of a possibly-`undefined` string inside a JS template
literal: `undefined` prints as "undefined". -/
def jsTemplate : Option String → String
  | some s => s
  | none => "undefined"

/-- The four corner labels, in the order both `_appendResizers` loops and
both handle-position lookups iterate them
(`resizecontext.js` line 229 / line 300, `resizer.js` line 251 /
line 286). -/
def resizerPositions : List String :=
  ["top-left", "top-right", "bottom-right", "bottom-left"]

/-- The `replacements` table of `ResizeContext._invertPosition`
(`resizecontext.js` lines 316-321), as a partial map: an unknown key
yields `undefined` (`none`), exactly as a JS object-property access
does. -/
def positionReplacement : String → Option String
  | "top" => some "bottom"
  | "bottom" => some "top"
  | "left" => some "right"
  | "right" => some "left"
  | _ => none

/-- Split a character list at every dash, matching JS `"…".split("-")`:
the result never drops empty fragments and splitting the empty string
gives one empty fragment. -/
def splitCharsOnDash : List Char → List (List Char)
  | [] => [[]]
  | c :: cs =>
      let rest := splitCharsOnDash cs
      if c = '-' then [] :: rest
      else
        match rest with
        | r :: rs => (c :: r) :: rs
        | [] => [[c]]

/-- JS `String.prototype.split` with separator "-", over the embedded
string. -/
def splitOnDash (s : String) : List String :=
  (splitCharsOnDash s.data).map String.mk

/-- `ResizeContext._invertPosition` (`resizecontext.js` lines 314-324):
splits the input on "-" and rebuilds the label from the per-part table
lookups.  A missing part (index out of range) or an unknown part looks up
nothing and prints as "undefined" in the template literal. -/
def invertPosition (position : String) : String :=
  let parts := splitOnDash position
  jsTemplate ((parts.get? 0).bind positionReplacement) ++ "-" ++
    jsTemplate ((parts.get? 1).bind positionReplacement)

/-- Modelled from the spec: the specification of `invertPosition`
(spec section 4.1) — a table lookup per axis that fails (returns nothing)
when the input is not one of the four valid labels.  Used only to compare
the source behaviour against the spec demand that invalid labels fail. -/
def invertPositionSpec (position : String) : Option String :=
  if position = "top-left" then some "bottom-right"
  else if position = "top-right" then some "bottom-left"
  else if position = "bottom-right" then some "top-left"
  else if position = "bottom-left" then some "top-right"
  else none

/-- `getResizerClass` (`resizer.js` lines 340-342) and the identical
`ResizeContext._getResizerClass` (`resizecontext.js` lines 288-290):
prefix a corner label with the resizer class stem. -/
def getResizerClass (resizerPosition : String) : String :=
  "ck-widget__resizer-" ++ resizerPosition

/-- `Resizer._getHandlePosition` (`resizer.js` lines 285-293) and the
identical `ResizeContext._getResizerPosition` (`resizecontext.js`
lines 299-307): scan the four positions in order and return the first one
whose generated class the element class list contains; `undefined`
(`none`) when none matches.  A DOM element `classList` is embedded as
the list of its class tokens. -/
def getHandlePosition (classes : List String) : Option String :=
  resizerPositions.find? (fun position => classes.contains (getResizerClass position))

/-- A DOM tree for the session manager routing, indexed by element id:
`parent` is the parent element (none at the root) and `classesOf` the
element class-token list. -/
structure Dom where
  parent : Nat → Option Nat
  classesOf : Nat → List String

/-- `getAncestors` from ckeditor5-utils as used by `widgetresizer.js`:
the proper ancestors of a node, ordered top-most first.  `fuel` bounds the
walk; any fuel at least the tree depth gives the full chain. -/
def getAncestors (dom : Dom) : Nat → Nat → List Nat
  | 0, _ => []
  | fuel + 1, i =>
      match dom.parent i with
      | none => []
      | some p => getAncestors dom fuel p ++ [p]

/-- `isResizeHandler` (`widgetresizer.js` lines 90-92): the element
class list contains "ck-widget__resizer". -/
def isResizeHandlerAt (dom : Dom) (i : Nat) : Bool :=
  (dom.classesOf i).contains "ck-widget__resizer"

/-- Handler resolution in the mousedown listener (`widgetresizer.js`
line 63): the target itself when it is a resize handler, else the first
(top-most) ancestor that is. -/
def findResizeHandler (dom : Dom) (fuel target : Nat) : Option Nat :=
  if isResizeHandlerAt dom target then some target
  else ((getAncestors dom fuel target).filter (isResizeHandlerAt dom)).head?

/-- The wrapper lookup inside `WidgetResizer._getContextByHandler`
(`widgetresizer.js` lines 164-167): the first (top-most) ancestor of the
handler carrying the "ck-widget__resizer-wrapper" class. -/
def wrapperOf (dom : Dom) (fuel handler : Nat) : Option Nat :=
  ((getAncestors dom fuel handler).filter
    (fun i => (dom.classesOf i).contains "ck-widget__resizer-wrapper")).head?

/-- A registered resize context as the session manager sees it: its
identity and the element id of its `domResizeWrapper`. -/
structure Context where
  cid : Nat
  domResizeWrapper : Nat
deriving DecidableEq, Repr

/-- `WidgetResizer._getContextByWrapper` (`widgetresizer.js`
lines 156-162): the first registered context whose `domResizeWrapper`
`isSameNode` the given wrapper (node identity is element-id equality in
the embedding). -/
def getContextByWrapper (contexts : List Context) (wrapper : Nat) : Option Context :=
  contexts.find? (fun context => context.domResizeWrapper = wrapper)

/-- State owned by `WidgetResizer` (`widgetresizer.js` init):
the registered contexts, the nullable `activeContext` (by context id),
how many times the mousemove listener is currently attached, and logs of
the `begin` and `commit` invocations the manager performed on contexts
(each `beginLog` entry is a context id with the handler element id it was
begun from). -/
structure SessionState where
  contexts : List Context
  activeContext : Option Nat
  mouseMoveListeners : Nat
  beginLog : List (Nat × Nat)
  commitLog : List Nat
deriving DecidableEq, Repr

/-- The mousedown listener (`widgetresizer.js` lines 60-74), as a step on
the session state.  When a resize handler is found it first attaches the
mousemove listener, then reassigns `activeContext` to whatever
`_getContextByHandler` resolves — there is no `activeContext != null`
guard anywhere — and, when a context resolved, invokes `begin` on it.
When the handler has no wrapper ancestor the JS throws a `TypeError`
inside `_getContextByWrapper` (`undefined.isSameNode`), leaving the
mutations made so far (the listener attach) in place; the embedding
returns exactly that partially-mutated state. -/
def mousedown (dom : Dom) (fuel : Nat) (s : SessionState) (target : Nat) : SessionState :=
  match findResizeHandler dom fuel target with
  | none => s
  | some handler =>
      let s1 := { s with mouseMoveListeners := s.mouseMoveListeners + 1 }
      match wrapperOf dom fuel handler with
      | none => s1
      | some wrapper =>
          let resolved := getContextByWrapper s1.contexts wrapper
          let s2 := { s1 with activeContext := resolved.map Context.cid }
          match resolved with
          | none => s2
          | some context => { s2 with beginLog := s2.beginLog ++ [(context.cid, handler)] }

/-- `finishResizing`, the mouseup listener (`widgetresizer.js`
lines 76-88): with an active context it stops the mousemove listening,
commits the active context, and clears `activeContext`; with none it does
nothing. -/
def mouseup (s : SessionState) : SessionState :=
  match s.activeContext with
  | none => s
  | some cid =>
      { s with
        mouseMoveListeners := 0
        commitLog := s.commitLog ++ [cid]
        activeContext := none }

/-- An absolute bounding box, as `Rect` / `getBoundingClientRect`
expose it. -/
structure DomRect where
  top : ℚ
  left : ℚ
  width : ℚ
  height : ℚ
deriving DecidableEq, Repr

/-- Modelled from the spec: `getAbsoluteBoundaryPoint` of `src/utils.js`
is not in the repository snapshot (only its import and call in
`resizecontext.js` line 129 are).  Spec section 4.1, `absoluteCorner`:
given a rectangle absolute bounding box and a corner label, return that
corner screen coordinate. -/
def getAbsoluteBoundaryPoint (rect : DomRect) (position : String) : ℚ × ℚ :=
  let parts := splitOnDash position
  let y := if parts.get? 0 = some "bottom" then rect.top + rect.height else rect.top
  let x := if parts.get? 1 = some "right" then rect.left + rect.width else rect.left
  (x, y)

/-- The resize-host element as the engine can observe it: its absolute
box at drag start, its rendered width when no inline width style is set,
an optional external `max-width` constraint (spec section 7, "Constrained
size"), the factor relating its rendered height to its rendered width,
and the inline width style the engine writes.  Rendered sizes are exact
rationals (the embedding ignores the integer rounding of
`clientWidth`). -/
structure HostElem where
  rect : DomRect
  naturalWidth : ℚ
  maxWidth : Option ℚ
  heightPerWidth : ℚ
  styleWidth : Option ℚ
deriving DecidableEq, Repr

/-- The width the layout engine actually renders for the host: the
requested inline width (or the natural width when none is set), clamped
by the external `max-width` rule when one applies. -/
def renderedWidth (host : HostElem) : ℚ :=
  let requested := host.styleWidth.getD host.naturalWidth
  match host.maxWidth with
  | some m => min requested m
  | none => requested

/-- The height the layout engine actually renders for the host, tied to
its rendered width by the content height-per-width factor (zero models
a host that renders with zero height). -/
def renderedHeight (host : HostElem) : ℚ :=
  renderedWidth host * host.heightPerWidth

/-- The collaborating editor at the boundary the engine sees
(spec section 6): the result of resolving the widget wrapper to a model
node (`editor.editing.mapper.toModelElement`, `none` when the mapping is
missing), and the log of every `writer.setAttribute( width, ..., node )`
call made inside `editor.model.change`, each recording the node the call
received — including `none` when the unresolved mapping result was passed
through. -/
structure Editor where
  mapperResolves : Option Nat
  writeLog : List (Option Nat × ℤ)
deriving DecidableEq, Repr

/-- Host geometry measured at redraw time: the host `Rect`
width/height and its `offsetLeft/offsetTop/offsetWidth/offsetHeight`.
Passing the same value to consecutive redraws embeds "no intervening
layout change". -/
structure HostGeom where
  rectWidth : ℚ
  rectHeight : ℚ
  offsetLeft : ℚ
  offsetTop : ℚ
  offsetWidth : ℚ
  offsetHeight : ℚ
deriving DecidableEq, Repr

/-- The observable state of one `ResizeContext` (`resizecontext.js`):
the shadow active marker class and style attribute, the observable
drag fields, the reference geometry captured by `begin`, the inline
styles of `domResizeWrapper`, whether `domResizeWrapper` is initialized
(non-null) and whether the widget wrapper `isSameNode` the resize host,
and the shadow rendered width as read at commit time. -/
structure RC where
  shadowActive : Bool
  shadowHasStyle : Bool
  referenceHandlerPosition : Option String
  orientation : Option String
  referenceCoordinates : ℚ × ℚ
  originalSize : ℚ × ℚ
  aspectRatio : Option JsNum
  proposedX : Option ℚ
  proposedY : Option ℚ
  wrapperStyleLeft : Option ℚ
  wrapperStyleTop : Option ℚ
  wrapperStyleWidth : Option ℚ
  wrapperStyleHeight : Option ℚ
  wrapperInitialized : Bool
  wrapperIsHost : Bool
  shadowClientWidth : ℤ
deriving DecidableEq, Repr

/-- Outcome of `ResizeContext.begin`: normal completion, the `TypeError`
the JS throws when `_invertPosition` receives `undefined` (handler with
no recognized position class), or the InvalidGeometry condition that the
spec-modelled strategy `begin` signals. -/
inductive BeginOutcome where
  | ok
  | typeError
  | invalidGeometry
deriving DecidableEq, Repr

/-- `ResizeContext.begin` (`resizecontext.js` lines 112-141): activates
the shadow, records the handler position (possibly `undefined`),
inverts it, captures the reference corner via `getAbsoluteBoundaryPoint`,
captures `originalSize` from the host `clientWidth`/`clientHeight`, and
sets `aspectRatio` to the `getAspectRatio` override when the option is
given, else to the JS quotient width / height — with no zero-height
check of its own.  The final delegation `resizeStrategy.begin` is
modelled from the spec (`src/resizertopbound.js` is not in the
snapshot): per spec section 4.2 it signals InvalidGeometry exactly when
the captured height is zero and no override was given; every mutation
the context made before that delegation stays in place, as it does in JS
when the delegate throws. -/
def resizeContextBegin (rc : RC) (handlerClasses : List String) (host : HostElem)
    (override : Option ℚ) : RC × BeginOutcome :=
  let rc1 := { rc with shadowActive := true }
  let pos := getHandlePosition handlerClasses
  let rc2 := { rc1 with referenceHandlerPosition := pos, orientation := pos }
  match pos with
  | none => (rc2, BeginOutcome.typeError)
  | some p =>
      let reversed := invertPosition p
      let rc3 := { rc2 with referenceCoordinates := getAbsoluteBoundaryPoint host.rect reversed }
      let w := renderedWidth host
      let h := renderedHeight host
      let rc4 := { rc3 with originalSize := (w, h) }
      let ratio := match override with
        | some r => JsNum.num r
        | none => jsDivQ w h
      let rc5 := { rc4 with aspectRatio := some ratio }
      if h = 0 ∧ override = none then (rc5, BeginOutcome.invalidGeometry)
      else (rc5, BeginOutcome.ok)

/-- `ResizeContext._dismissShadow` (`resizecontext.js` lines 260-263):
drops the active marker class and the shadow style attribute. -/
def dismissShadow (rc : RC) : RC :=
  { rc with shadowActive := false, shadowHasStyle := false }

/-- `ResizeContext._cleanupContext` (`resizecontext.js` lines 168-176):
clears the handler position and the observable proposed size and
orientation. -/
def cleanupContext (rc : RC) : RC :=
  { rc with
    referenceHandlerPosition := none
    proposedX := none
    proposedY := none
    orientation := none }

/-- `ResizeContext.redraw` (`resizecontext.js` lines 197-211): when
`domResizeWrapper` exists and the widget wrapper is not itself the
resize host, copy the host offset geometry onto the wrapper inline
styles; otherwise do nothing. -/
def resizeContextRedraw (g : HostGeom) (rc : RC) : RC :=
  if rc.wrapperInitialized then
    if rc.wrapperIsHost then rc
    else
      { rc with
        wrapperStyleLeft := some g.offsetLeft
        wrapperStyleTop := some g.offsetTop
        wrapperStyleHeight := some g.offsetHeight
        wrapperStyleWidth := some g.offsetWidth }
  else rc

/-- `ResizeContext.commit` (`resizecontext.js` lines 143-158): resolve
the mapping, read the shadow rendered width, dismiss the shadow,
redraw, delegate to the strategy commit (modelled from the spec:
section 6 says the attribute store is called exactly once per commit and
that call is the context own `editor.model.change` below, so the
strategy commit performs no attribute write), then unconditionally call
`writer.setAttribute` with whatever the mapping resolved to — there is no
missing-mapping guard — and clean up the observable state. -/
def resizeContextCommit (g : HostGeom) (rc : RC) (editor : Editor) : RC × Editor :=
  let modelEntry := editor.mapperResolves
  let newWidth := rc.shadowClientWidth
  let rc1 := dismissShadow rc
  let rc2 := resizeContextRedraw g rc1
  let editor1 := { editor with writeLog := editor.writeLog ++ [(modelEntry, newWidth)] }
  (cleanupContext rc2, editor1)

/-- `ResizeContext.cancel` (`resizecontext.js` lines 160-166): dismiss
the shadow, delegate to the strategy cancel (modelled from the spec:
purely visual, no attribute write), clean up.  The JS method takes no
editor at all, so the embedding signature has none either: `cancel`
cannot reach the attribute store. -/
def resizeContextCancel (rc : RC) : RC :=
  cleanupContext (dismissShadow rc)

/-- Modelled from the spec: the per-drag value object `ResizeState` of
`src/widgetresizer/resizerstate.js` is not in the repository snapshot
(only its import and uses in `resizer.js` are).  Spec sections 3
and 4.2: active handle position, reference point, original size, aspect
ratio, and the observable proposed size (both `null` when idle). -/
structure ResizeState where
  activeHandlePosition : Option String
  referenceCoordinates : ℚ × ℚ
  originalWidth : ℚ
  originalHeight : ℚ
  aspectRatio : ℚ
  proposedWidth : Option ℚ
  proposedHeight : Option ℚ
deriving DecidableEq, Repr

/-- Modelled from the spec: the minimum-size floor of spec section 3 —
"no smaller than a small positive threshold, e.g. a few pixels"; the
exact value is unspecified and nothing proved below depends on it. -/
def minimumSize : ℚ := 1

/-- Whether a corner label names the left column (its second part is
"left"), which flips the sign convention of the horizontal delta
(spec section 4.2). -/
def isLeftColumn (position : String) : Bool :=
  (splitOnDash position).get? 1 = some "left"

/-- Modelled from the spec: `ResizeState.proposeNewSize`
(spec section 4.2, `proposeSize`): sign-corrected horizontal delta from
the reference point (dragging a left handle grows width with decreasing
x), clamped to the minimum-size floor; height derived from the aspect
ratio and clamped likewise.  The clamp also holds the size at the floor
when the pointer crosses the fixed reference corner (section 4.3
policy). -/
def proposeNewSize (st : ResizeState) (pointer : ℚ × ℚ) : ℚ × ℚ :=
  let dx := pointer.1 - st.referenceCoordinates.1
  let signed := match st.activeHandlePosition with
    | some p => if isLeftColumn p then -dx else dx
    | none => dx
  let width := max signed minimumSize
  let height := max (width / st.aspectRatio) minimumSize
  (width, height)

/-- Modelled from the spec: `ResizeState.fetchSizeFromElement` — the
re-read step of spec section 4.3: store the host *actual* rendered
size in the observable proposed-size fields. -/
def fetchSizeFromElement (st : ResizeState) (host : HostElem) : ResizeState :=
  { st with
    proposedWidth := some (renderedWidth host)
    proposedHeight := some (renderedHeight host) }

/-- The live size label content (`SizeView.bindResizer`, `resizer.js`
lines 322-330): the label text is built from `Math.round` of the
observable proposed width and height (JS `Math.round(null)` is `0`), and
it is visible exactly when both are non-null. -/
def sizeLabelNumbers (st : ResizeState) : ℤ × ℤ :=
  (jsRound (st.proposedWidth.getD 0), jsRound (st.proposedHeight.getD 0))

/-- Visibility of the live size label (`resizer.js` lines 323-324). -/
def sizeLabelVisible (st : ResizeState) : Bool :=
  st.proposedWidth.isSome && st.proposedHeight.isSome

/-- The observable state of one `Resizer`
(`src/widgetresizer/resizer.js`): its spec-modelled `ResizeState`, the
resize host it styles, the overlay wrapper inline styles, whether the
wrapper is mounted in the live document (`existsInDom`), whether the
widget wrapper `isSameNode` the resize host, the shadow style
attribute, the `modelElement` passed in the options, the shadow
rendered width as read at commit time, and the size label
visibility. -/
structure Resizer where
  state : ResizeState
  host : HostElem
  wrapperStyleLeft : Option ℚ
  wrapperStyleTop : Option ℚ
  wrapperStyleWidth : Option ℚ
  wrapperStyleHeight : Option ℚ
  mounted : Bool
  wrapperIsHost : Bool
  shadowHasStyle : Bool
  modelElement : Option Nat
  shadowClientWidth : ℤ
  labelVisible : Bool
deriving DecidableEq, Repr

/-- `Resizer.updateSize` (`resizer.js` lines 112-124): ask the state for
a proposed size, write only its width to the resize host live style,
re-read the host actual rendered size into the state
(`fetchSizeFromElement`), and copy the re-read proposed width/height —
not the requested ones — onto the overlay wrapper dimensions. -/
def resizerUpdateSize (rz : Resizer) (pointer : ℚ × ℚ) : Resizer :=
  let newSize := proposeNewSize rz.state pointer
  let host1 := { rz.host with styleWidth := some newSize.1 }
  let st1 := fetchSizeFromElement rz.state host1
  { rz with
    host := host1
    state := st1
    wrapperStyleWidth := st1.proposedWidth
    wrapperStyleHeight := st1.proposedHeight }

/-- `Resizer.redraw` (`resizer.js` lines 153-181): when the wrapper
exists in the live document, set the wrapper dimensions from the
host `Rect`; when additionally the widget wrapper is not itself the
resize host, override position and dimensions with the host offset
geometry. -/
def resizerRedraw (g : HostGeom) (rz : Resizer) : Resizer :=
  if rz.mounted then
    let rz1 := { rz with
      wrapperStyleWidth := some g.rectWidth
      wrapperStyleHeight := some g.rectHeight }
    if rz.wrapperIsHost then rz1
    else
      { rz1 with
        wrapperStyleLeft := some g.offsetLeft
        wrapperStyleTop := some g.offsetTop
        wrapperStyleHeight := some g.offsetHeight
        wrapperStyleWidth := some g.offsetWidth }
  else rz

/-- `Resizer._dismissShadow` (`resizer.js` lines 223-225): remove the
shadow style attribute. -/
def dismissShadowRz (rz : Resizer) : Resizer :=
  { rz with shadowHasStyle := false }

/-- `Resizer._cleanup` (`resizer.js` lines 196-199): dismiss the size
label and hide it. -/
def cleanupRz (rz : Resizer) : Resizer :=
  { rz with labelVisible := false }

/-- `Resizer.commit` (`resizer.js` lines 126-139): read `modelElement`
straight from the options and the new width from the shadow, dismiss the
shadow, redraw, then unconditionally call `writer.setAttribute` with that
`modelElement` — no missing-element guard — and clean up.  (The JS writes
the value with a "px" suffix; the log keeps the numeric part.) -/
def resizerCommit (g : HostGeom) (rz : Resizer) (editor : Editor) : Resizer × Editor :=
  let modelElement := rz.modelElement
  let newWidth := rz.shadowClientWidth
  let rz1 := dismissShadowRz rz
  let rz2 := resizerRedraw g rz1
  let editor1 := { editor with writeLog := editor.writeLog ++ [(modelElement, newWidth)] }
  (cleanupRz rz2, editor1)

/-- `Resizer.cancel` (`resizer.js` lines 144-147): dismiss the shadow
and clean up; the JS method takes no editor, so the embedding
signature has none — `cancel` cannot reach the attribute store. -/
def resizerCancel (rz : Resizer) : Resizer :=
  cleanupRz (dismissShadowRz rz)

/-- A two-widget DOM for concrete session runs: wrappers 10 and 20 carry
the resizer-wrapper class, handles 11 (child of 10) and 21 (child of 20)
carry the resizer and a corner class. -/
def domTwoWidgets : Dom where
  parent := fun i =>
    if i = 11 then some 10 else if i = 21 then some 20 else none
  classesOf := fun i =>
    if i = 10 ∨ i = 20 then ["ck", "ck-widget__resizer-wrapper"]
    else if i = 11 ∨ i = 21 then
      ["ck-widget__resizer", "ck-widget__resizer-bottom-right"]
    else []

/-- A fresh session with the two contexts of `domTwoWidgets`
registered. -/
def sessionTwoWidgets : SessionState where
  contexts := [⟨1, 10⟩, ⟨2, 20⟩]
  activeContext := none
  mouseMoveListeners := 0
  beginLog := []
  commitLog := []

/-- A `ResizeContext` in its post-constructor / post-cleanup idle state. -/
def rcIdle : RC where
  shadowActive := false
  shadowHasStyle := false
  referenceHandlerPosition := none
  orientation := none
  referenceCoordinates := (0, 0)
  originalSize := (0, 0)
  aspectRatio := none
  proposedX := none
  proposedY := none
  wrapperStyleLeft := none
  wrapperStyleTop := none
  wrapperStyleWidth := none
  wrapperStyleHeight := none
  wrapperInitialized := true
  wrapperIsHost := false
  shadowClientWidth := 0

/-- A mid-drag `ResizeContext` whose shadow currently renders 140
pixels wide. -/
def rcMidDrag : RC :=
  { rcIdle with
    shadowActive := true
    shadowHasStyle := true
    referenceHandlerPosition := some "bottom-right"
    orientation := some "bottom-right"
    originalSize := (100, 50)
    aspectRatio := some (JsNum.num 2)
    proposedX := some 140
    proposedY := some 70
    shadowClientWidth := 140 }

/-- A stable host geometry for redraw/commit runs. -/
def geomStable : HostGeom where
  rectWidth := 140
  rectHeight := 70
  offsetLeft := 5
  offsetTop := 5
  offsetWidth := 140
  offsetHeight := 70

/-- A host whose rendered height is zero (its content renders with no
height), 100 units wide. -/
def hostZeroHeight : HostElem where
  rect := { top := 0, left := 0, width := 100, height := 0 }
  naturalWidth := 100
  maxWidth := none
  heightPerWidth := 0
  styleWidth := none

/-- A 100 by 50 host whose box sits at absolute (left 20, top 10). -/
def hostPlain : HostElem where
  rect := { top := 10, left := 20, width := 100, height := 50 }
  naturalWidth := 100
  maxWidth := none
  heightPerWidth := 1 / 2
  styleWidth := none

/-- A resizer mid-drag on a host constrained by an external
max-width of 120: the drag began bottom-right on a 100 by 50 host with
aspect ratio 2, reference corner at the origin. -/
def rzConstrained : Resizer where
  state :=
    { activeHandlePosition := some "bottom-right"
      referenceCoordinates := (0, 0)
      originalWidth := 100
      originalHeight := 50
      aspectRatio := 2
      proposedWidth := some 100
      proposedHeight := some 50 }
  host :=
    { rect := { top := 0, left := 0, width := 100, height := 50 }
      naturalWidth := 100
      maxWidth := some 120
      heightPerWidth := 1 / 2
      styleWidth := none }
  wrapperStyleLeft := none
  wrapperStyleTop := none
  wrapperStyleWidth := some 100
  wrapperStyleHeight := some 50
  mounted := true
  wrapperIsHost := false
  shadowHasStyle := true
  modelElement := some 3
  shadowClientWidth := 100
  labelVisible := true

/-- Claim C5: for each of the four valid handle positions,
`_invertPosition` is an involution and maps the axes independently,
pairing top-left with bottom-right and top-right with bottom-left. -/
theorem invertPosition_involution :
    (∀ p, p ∈ resizerPositions → invertPosition (invertPosition p) = p) ∧
    invertPosition "top-left" = "bottom-right" ∧
    invertPosition "bottom-right" = "top-left" ∧
    invertPosition "top-right" = "bottom-left" ∧
    invertPosition "bottom-left" = "top-right" := by
  refine ⟨?_, by decide, by decide, by decide, by decide⟩
  intro p hp
  simp only [resizerPositions, List.mem_cons, List.mem_singleton, List.not_mem_nil,
    or_false] at hp
  rcases hp with h | h | h | h <;> subst h <;> decide

/-- Witness for claim C5 at the concrete position "top-left". -/
theorem invertPosition_involution_witness :
    invertPosition (invertPosition "top-left") = "top-left" :=
  invertPosition_involution.1 "top-left" (by decide)

/-- Claim C9, counterexample: `_invertPosition` applied to the invalid
label "middle-center" does not fail — it returns the string
"undefined-undefined" (each missing table lookup renders as
"undefined"), while the spec-modelled `invertPositionSpec` demands
failure there.  No UsageError is signalled by the source function on any
string input. -/
theorem invertPosition_invalid_counterexample :
    invertPosition "middle-center" = "undefined-undefined" ∧
    invertPositionSpec "middle-center" = none ∧
    "middle-center" ∉ resizerPositions := by decide

/-- Claim C9 as amended: on a string input that is not one of the four
valid corner labels `_invertPosition` does not fail; whenever neither
dash-separated part is in the replacement table it returns
"undefined-undefined", and some invalid inputs even map onto valid
labels (extra parts are ignored: "top-left-x" yields "bottom-right"). -/
theorem invertPosition_invalid_total :
    (∀ s, ((splitOnDash s).get? 0).bind positionReplacement = none →
      ((splitOnDash s).get? 1).bind positionReplacement = none →
      invertPosition s = "undefined-undefined") ∧
    invertPosition "top-left-x" = "bottom-right" ∧
    "top-left-x" ∉ resizerPositions := by
  refine ⟨?_, by decide, by decide⟩
  intro s h0 h1
  have e : invertPosition s =
      jsTemplate (((splitOnDash s).get? 0).bind positionReplacement) ++ "-" ++
        jsTemplate (((splitOnDash s).get? 1).bind positionReplacement) := rfl
  rw [e, h0, h1]
  decide

/-- Witness for the amended claim C9 at the concrete invalid label
"middle-center". -/
theorem invertPosition_invalid_total_witness :
    invertPosition "middle-center" = "undefined-undefined" :=
  invertPosition_invalid_total.1 "middle-center" (by decide) (by decide)

/-- Claim C10: the handle-class generator and the handle-position lookup
round-trip — an element whose class list contains the generated class
for `p` and no other generated class is recognized as exactly `p`, and an
element carrying none of the four generated classes yields `undefined`
(`none`), without error. -/
theorem handle_class_roundtrip :
    (∀ p, p ∈ resizerPositions → ∀ classes : List String,
      getResizerClass p ∈ classes →
      (∀ q, q ∈ resizerPositions → q ≠ p → getResizerClass q ∉ classes) →
      getHandlePosition classes = some p) ∧
    (∀ classes : List String,
      (∀ q, q ∈ resizerPositions → getResizerClass q ∉ classes) →
      getHandlePosition classes = none) := by
  constructor
  · intro p hp classes hc hothers
    simp only [resizerPositions, List.mem_cons, List.mem_singleton, List.not_mem_nil,
      or_false] at hp
    rcases hp with h | h | h | h <;> subst h <;>
      simp [getHandlePosition, resizerPositions, List.find?, hc,
        hothers "top-left" (by decide), hothers "top-right" (by decide),
        hothers "bottom-right" (by decide), hothers "bottom-left" (by decide)]
  · intro classes hnone
    simp [getHandlePosition, resizerPositions, List.find?,
      hnone "top-left" (by decide), hnone "top-right" (by decide),
      hnone "bottom-right" (by decide), hnone "bottom-left" (by decide)]

/-- Witness for claim C10: a handle element carrying the generated
bottom-left class (next to the plain resizer class) is recognized as
bottom-left, and an element with unrelated classes is not matched. -/
theorem handle_class_roundtrip_witness :
    getHandlePosition ["ck-widget__resizer", "ck-widget__resizer-bottom-left"] =
      some "bottom-left" ∧
    getHandlePosition ["ck", "ck-widget__resizer-wrapper"] = none :=
  ⟨handle_class_roundtrip.1 "bottom-left" (by decide) _ (by decide) (by decide),
   handle_class_roundtrip.2 _ (by decide)⟩

/-- Claim C1, counterexample: with two widgets registered, a pointer-down
on the first widget handle activates context 1; a second pointer-down
arriving on the second widget handle while that drag is in progress is
not ignored — the handle lookup runs, `activeContext` changes from
context 1 to context 2, and a second `begin` is invoked, because the
mousedown listener has no `activeContext != null` guard. -/
theorem second_mousedown_counterexample :
    (mousedown domTwoWidgets 4 sessionTwoWidgets 11).activeContext = some 1 ∧
    (mousedown domTwoWidgets 4
      (mousedown domTwoWidgets 4 sessionTwoWidgets 11) 21).activeContext = some 2 ∧
    (mousedown domTwoWidgets 4
      (mousedown domTwoWidgets 4 sessionTwoWidgets 11) 21).beginLog =
      [(1, 11), (2, 21)] := by decide

/-- Claim C1 as amended: a pointer-down whose target resolves to a
handle and a registered context always — whatever `activeContext`
currently is, including mid-drag — attaches another mousemove listener,
reassigns `activeContext` to the newly resolved context and begins a new
drag on it; the previous drag is abandoned without commit.  Only the
single-slot nature of `activeContext` keeps more than one context from
being referenced at a time. -/
theorem second_mousedown_behavior :
    ∀ (dom : Dom) (fuel : Nat) (s : SessionState) (target handler wrapper : Nat)
      (c : Context),
      findResizeHandler dom fuel target = some handler →
      wrapperOf dom fuel handler = some wrapper →
      getContextByWrapper s.contexts wrapper = some c →
      mousedown dom fuel s target =
        { s with
          mouseMoveListeners := s.mouseMoveListeners + 1
          activeContext := some c.cid
          beginLog := s.beginLog ++ [(c.cid, handler)] } := by
  intro dom fuel s target handler wrapper c h1 h2 h3
  simp [mousedown, h1, h2, h3]

/-- Witness for the amended claim C1: the second pointer-down of the
counterexample scenario, taken mid-drag. -/
theorem second_mousedown_behavior_witness :
    mousedown domTwoWidgets 4 (mousedown domTwoWidgets 4 sessionTwoWidgets 11) 21 =
      { mousedown domTwoWidgets 4 sessionTwoWidgets 11 with
        mouseMoveListeners :=
          (mousedown domTwoWidgets 4 sessionTwoWidgets 11).mouseMoveListeners + 1
        activeContext := some 2
        beginLog :=
          (mousedown domTwoWidgets 4 sessionTwoWidgets 11).beginLog ++ [(2, 21)] } :=
  second_mousedown_behavior domTwoWidgets 4 _ 21 21 20 ⟨2, 20⟩
    (by decide) (by decide) (by decide)

/-- Claim C6: pointer-up with an active context detaches the
pointer-move subscription, commits the active context exactly once (one
entry appended to the commit log) and clears `activeContext`; pointer-up
with no active context changes nothing. -/
theorem mouseup_finalization :
    (∀ (s : SessionState) (cid : Nat), s.activeContext = some cid →
      mouseup s =
        { s with
          mouseMoveListeners := 0
          commitLog := s.commitLog ++ [cid]
          activeContext := none }) ∧
    (∀ s : SessionState, s.activeContext = none → mouseup s = s) := by
  constructor
  · intro s cid h
    simp [mouseup, h]
  · intro s h
    simp [mouseup, h]

/-- Witness for claim C6: one finalization of an active drag and one
no-op pointer-up, on concrete session states. -/
theorem mouseup_finalization_witness :
    mouseup { contexts := [⟨1, 10⟩], activeContext := some 1,
              mouseMoveListeners := 1, beginLog := [(1, 11)], commitLog := [] } =
      { contexts := [⟨1, 10⟩], activeContext := none,
        mouseMoveListeners := 0, beginLog := [(1, 11)], commitLog := [1] } ∧
    mouseup sessionTwoWidgets = sessionTwoWidgets :=
  ⟨mouseup_finalization.1 _ 1 rfl, mouseup_finalization.2 _ rfl⟩

/-- Claim C2, counterexample: committing while the widget-to-node
mapping is missing (`mapperResolves = none`) does not skip the write —
exactly one `setAttribute` call is still made, receiving the unresolved
mapping result, so the write count is one where the claim demands
zero. -/
theorem commit_missing_mapping_counterexample :
    ((resizeContextCommit geomStable rcMidDrag
        { mapperResolves := none, writeLog := [] }).2).writeLog = [(none, 140)] ∧
    ((resizeContextCommit geomStable rcMidDrag
        { mapperResolves := none, writeLog := [] }).2).writeLog.length ≠ 0 := by
  decide

/-- Claim C2 as amended: `commit` performs exactly one attribute-write
call whether or not the mapping resolves — the call receives whatever the
mapping returned, `none` included — and the visual cleanup (shadow
dismissed, observable proposed size cleared) runs in every case; the
same holds for the `Resizer` variant, which passes its options
`modelElement` through unconditionally; `cancel` never writes — in both
variants it takes no editor at all, so pairing it with any editor leaves
the write log untouched. -/
theorem commit_write_behavior :
    (∀ (g : HostGeom) (rc : RC) (ed : Editor),
      ((resizeContextCommit g rc ed).2).writeLog =
        ed.writeLog ++ [(ed.mapperResolves, rc.shadowClientWidth)] ∧
      ((resizeContextCommit g rc ed).1).shadowActive = false ∧
      ((resizeContextCommit g rc ed).1).proposedX = none) ∧
    (∀ (g : HostGeom) (rz : Resizer) (ed : Editor),
      ((resizerCommit g rz ed).2).writeLog =
        ed.writeLog ++ [(rz.modelElement, rz.shadowClientWidth)]) ∧
    (∀ (rc : RC) (ed : Editor),
      (resizeContextCancel rc).shadowActive = false ∧
      (resizeContextCancel rc).proposedX = none ∧
      (resizeContextCancel rc, ed).2 = ed) ∧
    (∀ (rz : Resizer) (ed : Editor),
      (resizerCancel rz).shadowHasStyle = false ∧
      (resizerCancel rz, ed).2 = ed) := by
  refine ⟨?_, ?_, ?_, ?_⟩
  · intro g rc ed
    refine ⟨rfl, ?_, rfl⟩
    simp only [resizeContextCommit, cleanupContext, resizeContextRedraw, dismissShadow]
    split
    · split <;> rfl
    · rfl
  · intro g rz ed
    rfl
  · intro rc ed
    exact ⟨rfl, rfl, rfl⟩
  · intro rz ed
    exact ⟨rfl, rfl⟩

/-- Claim C3: `Resizer.updateSize` writes the proposed width to the
resize host live style, then re-reads the host actual rendered size,
and that re-read value — not the requested one — is what lands on the
overlay wrapper dimensions and drives the live size label; in
particular, when an external max-width clamps the request, the overlay
shows the clamped value and never the raw request. -/
theorem updateSize_reread :
    ∀ (rz : Resizer) (pointer : ℚ × ℚ),
      (resizerUpdateSize rz pointer).host =
        { rz.host with styleWidth := some (proposeNewSize rz.state pointer).1 } ∧
      (resizerUpdateSize rz pointer).wrapperStyleWidth =
        some (renderedWidth
          { rz.host with styleWidth := some (proposeNewSize rz.state pointer).1 }) ∧
      (resizerUpdateSize rz pointer).wrapperStyleHeight =
        some (renderedHeight
          { rz.host with styleWidth := some (proposeNewSize rz.state pointer).1 }) ∧
      sizeLabelNumbers (resizerUpdateSize rz pointer).state =
        (jsRound (renderedWidth
           { rz.host with styleWidth := some (proposeNewSize rz.state pointer).1 }),
         jsRound (renderedHeight
           { rz.host with styleWidth := some (proposeNewSize rz.state pointer).1 })) ∧
      sizeLabelVisible (resizerUpdateSize rz pointer).state = true ∧
      (∀ m : ℚ, rz.host.maxWidth = some m →
        m < (proposeNewSize rz.state pointer).1 →
        (resizerUpdateSize rz pointer).wrapperStyleWidth = some m ∧
        (resizerUpdateSize rz pointer).wrapperStyleWidth ≠
          some (proposeNewSize rz.state pointer).1) := by
  intro rz pointer
  refine ⟨rfl, rfl, rfl, rfl, rfl, ?_⟩
  intro m hm hlt
  have hrw : renderedWidth
      { rz.host with styleWidth := some (proposeNewSize rz.state pointer).1 } = m := by
    simp [renderedWidth, hm, min_eq_right hlt.le]
  constructor
  · show some (renderedWidth
      { rz.host with styleWidth := some (proposeNewSize rz.state pointer).1 }) = some m
    rw [hrw]
  · show some (renderedWidth
      { rz.host with styleWidth := some (proposeNewSize rz.state pointer).1 }) ≠
        some (proposeNewSize rz.state pointer).1
    rw [hrw]
    intro h
    exact absurd (Option.some.inj h) hlt.ne

/-- Witness for claim C3: dragging the constrained resizer to a pointer
position requesting width 150 leaves the overlay at the clamped rendered
width 120, not at the requested 150. -/
theorem updateSize_reread_witness :
    rzConstrained.host.maxWidth = some 120 ∧
    120 < (proposeNewSize rzConstrained.state (150, 75)).1 ∧
    (resizerUpdateSize rzConstrained (150, 75)).wrapperStyleWidth = some 120 ∧
    (resizerUpdateSize rzConstrained (150, 75)).wrapperStyleWidth ≠
      some (proposeNewSize rzConstrained.state (150, 75)).1 := by
  have hL : isLeftColumn "bottom-right" = false := by decide
  have hreq : (proposeNewSize rzConstrained.state (150, 75)).1 = 150 := by
    simp only [proposeNewSize, rzConstrained, hL, minimumSize, Bool.false_eq_true,
      if_false]
    norm_num
  have hlt : 120 < (proposeNewSize rzConstrained.state (150, 75)).1 := by
    rw [hreq]; norm_num
  exact ⟨rfl, hlt,
    ((updateSize_reread rzConstrained (150, 75)).2.2.2.2.2 120 rfl hlt).1,
    ((updateSize_reread rzConstrained (150, 75)).2.2.2.2.2 120 rfl hlt).2⟩

/-- Claim C4, counterexample: beginning a drag on a host whose rendered
height is zero, with no aspect-ratio override, does not leave the system
idle — `ResizeContext.begin` has already activated the drag shadow and
set `aspectRatio` to `Infinity` before the (spec-modelled) strategy can
signal anything, the session `activeContext` is already set by the
pointer-down handler and survives, and the next pointer-up commits —
contradicting "the session remains idle and there is nothing to commit
at pointer-up". -/
theorem zero_height_begin_counterexample :
    ((resizeContextBegin rcIdle
        ["ck-widget__resizer", "ck-widget__resizer-bottom-right"]
        hostZeroHeight none).1).shadowActive = true ∧
    ((resizeContextBegin rcIdle
        ["ck-widget__resizer", "ck-widget__resizer-bottom-right"]
        hostZeroHeight none).1).aspectRatio = some JsNum.inf ∧
    (mousedown domTwoWidgets 4 sessionTwoWidgets 11).activeContext ≠ none ∧
    (mouseup (mousedown domTwoWidgets 4 sessionTwoWidgets 11)).commitLog ≠ [] := by
  have hpos : getHandlePosition ["ck-widget__resizer", "ck-widget__resizer-bottom-right"] =
      some "bottom-right" := by decide
  have hh : renderedHeight hostZeroHeight = 0 := by
    simp [renderedHeight, hostZeroHeight]
  have hw : 0 < renderedWidth hostZeroHeight := by
    norm_num [renderedWidth, hostZeroHeight]
  refine ⟨?_, ?_, by decide, by decide⟩
  · simp [resizeContextBegin, hpos, hh]
  · simp [resizeContextBegin, hpos, hh, jsDivQ, hw]

/-- Claim C4 as amended: with zero rendered height and no override,
`ResizeContext.begin` performs no geometry check of its own — it
activates the shadow, captures an `originalSize` with zero height, and
sets `aspectRatio` to `Infinity` (the JS quotient); only the
spec-modelled strategy `begin` signals InvalidGeometry, after those
mutations.  The session does not remain idle: `activeContext` is
assigned by the pointer-down handler before `begin` runs, and a
pointer-up with an active context always commits it. -/
theorem zero_height_begin_behavior :
    (∀ (rc : RC) (classes : List String) (host : HostElem) (p : String),
      getHandlePosition classes = some p →
      renderedHeight host = 0 →
      0 < renderedWidth host →
      ((resizeContextBegin rc classes host none).1).shadowActive = true ∧
      ((resizeContextBegin rc classes host none).1).aspectRatio = some JsNum.inf ∧
      ((resizeContextBegin rc classes host none).1).originalSize =
        (renderedWidth host, 0) ∧
      (resizeContextBegin rc classes host none).2 = BeginOutcome.invalidGeometry) ∧
    (∀ (dom : Dom) (fuel : Nat) (s : SessionState) (target handler wrapper : Nat)
      (c : Context),
      findResizeHandler dom fuel target = some handler →
      wrapperOf dom fuel handler = some wrapper →
      getContextByWrapper s.contexts wrapper = some c →
      (mousedown dom fuel s target).activeContext = some c.cid) ∧
    (∀ (s : SessionState) (cid : Nat), s.activeContext = some cid →
      (mouseup s).commitLog = s.commitLog ++ [cid]) := by
  refine ⟨?_, ?_, ?_⟩
  · intro rc classes host p hp hh hw
    simp [resizeContextBegin, hp, hh, hw, jsDivQ, hw.ne]
  · intro dom fuel s target handler wrapper c h1 h2 h3
    simp [mousedown, h1, h2, h3]
  · intro s cid h
    simp [mouseup, h]

/-- Witness for the amended claim C4: the concrete zero-height host and
the concrete session run of the counterexample. -/
theorem zero_height_begin_behavior_witness :
    ((resizeContextBegin rcIdle
        ["ck-widget__resizer", "ck-widget__resizer-bottom-right"]
        hostZeroHeight none).1).aspectRatio = some JsNum.inf ∧
    (resizeContextBegin rcIdle
        ["ck-widget__resizer", "ck-widget__resizer-bottom-right"]
        hostZeroHeight none).2 = BeginOutcome.invalidGeometry ∧
    (mousedown domTwoWidgets 4 sessionTwoWidgets 11).activeContext = some 1 ∧
    (mouseup (mousedown domTwoWidgets 4 sessionTwoWidgets 11)).commitLog = [1] :=
  ⟨(zero_height_begin_behavior.1 rcIdle _ hostZeroHeight "bottom-right"
      (by decide) (by simp [renderedHeight, hostZeroHeight])
      (by norm_num [renderedWidth, hostZeroHeight])).2.1,
   (zero_height_begin_behavior.1 rcIdle _ hostZeroHeight "bottom-right"
      (by decide) (by simp [renderedHeight, hostZeroHeight])
      (by norm_num [renderedWidth, hostZeroHeight])).2.2.2,
   zero_height_begin_behavior.2.1 domTwoWidgets 4 sessionTwoWidgets 11 11 10 ⟨1, 10⟩
     (by decide) (by decide) (by decide),
   (zero_height_begin_behavior.2.2 (mousedown domTwoWidgets 4 sessionTwoWidgets 11) 1
     (by decide)).trans (by decide)⟩

/-- Claim C7: `begin` sets the reference coordinates to the absolute
corner opposite (the inverse of) the dragged handle position, captures
`originalSize` from the host current rendered box, and sets the aspect
ratio to the host-supplied override when one is given and to the width /
height quotient otherwise. -/
theorem begin_reference_geometry :
    ∀ (rc : RC) (classes : List String) (host : HostElem) (override : Option ℚ)
      (p : String),
      getHandlePosition classes = some p →
      ((resizeContextBegin rc classes host override).1).referenceCoordinates =
        getAbsoluteBoundaryPoint host.rect (invertPosition p) ∧
      ((resizeContextBegin rc classes host override).1).originalSize =
        (renderedWidth host, renderedHeight host) ∧
      ((resizeContextBegin rc classes host override).1).referenceHandlerPosition =
        some p ∧
      (∀ r : ℚ, override = some r →
        ((resizeContextBegin rc classes host override).1).aspectRatio =
          some (JsNum.num r)) ∧
      (override = none →
        ((resizeContextBegin rc classes host override).1).aspectRatio =
          some (jsDivQ (renderedWidth host) (renderedHeight host))) := by
  intro rc classes host override p hp
  refine ⟨?_, ?_, ?_, ?_, ?_⟩
  · simp only [resizeContextBegin, hp]
    split <;> rfl
  · simp only [resizeContextBegin, hp]
    split <;> rfl
  · simp only [resizeContextBegin, hp]
    split <;> rfl
  · intro r hr
    simp only [resizeContextBegin, hp, hr]
    split <;> rfl
  · intro hr
    simp only [resizeContextBegin, hp, hr]
    split <;> rfl

/-- Witness for claim C7: beginning at the top-right handle of the
plain 100 by 50 host keeps the bottom-left corner — absolute (20, 60) —
fixed, and derives aspect ratio 2 from the rendered box. -/
theorem begin_reference_geometry_witness :
    ((resizeContextBegin rcIdle
        ["ck-widget__resizer", "ck-widget__resizer-top-right"]
        hostPlain none).1).referenceCoordinates = (20, 60) ∧
    ((resizeContextBegin rcIdle
        ["ck-widget__resizer", "ck-widget__resizer-top-right"]
        hostPlain none).1).originalSize = (100, 50) ∧
    ((resizeContextBegin rcIdle
        ["ck-widget__resizer", "ck-widget__resizer-top-right"]
        hostPlain none).1).aspectRatio = some (JsNum.num 2) := by
  have h := begin_reference_geometry rcIdle
    ["ck-widget__resizer", "ck-widget__resizer-top-right"] hostPlain none "top-right"
    (by decide)
  have hi : invertPosition "top-right" = "bottom-left" := by decide
  refine ⟨?_, ?_, ?_⟩
  · rw [h.1, hi]
    have h0 : (splitOnDash "bottom-left").get? 0 = some "bottom" := by decide
    have h1 : ¬ ((splitOnDash "bottom-left").get? 1 = some "right") := by decide
    simp only [getAbsoluteBoundaryPoint, if_pos h0, if_neg h1]
    norm_num [hostPlain]
  · rw [h.2.1]
    norm_num [renderedWidth, renderedHeight, hostPlain]
  · rw [h.2.2.2.2 rfl]
    norm_num [jsDivQ, renderedWidth, renderedHeight, hostPlain]

/-- Claim C8: both `redraw` implementations are idempotent — with the
overlay state as it is and no intervening layout change (the same
measured host geometry), redrawing twice leaves exactly the overlay
geometry that redrawing once produces. -/
theorem redraw_idempotent :
    (∀ (g : HostGeom) (rz : Resizer),
      resizerRedraw g (resizerRedraw g rz) = resizerRedraw g rz) ∧
    (∀ (g : HostGeom) (rc : RC),
      resizeContextRedraw g (resizeContextRedraw g rc) = resizeContextRedraw g rc) := by
  constructor
  · intro g rz
    by_cases hm : rz.mounted <;> by_cases hw : rz.wrapperIsHost <;>
      simp [resizerRedraw, hm, hw]
  · intro g rc
    by_cases hm : rc.wrapperInitialized <;> by_cases hw : rc.wrapperIsHost <;>
      simp [resizeContextRedraw, hm, hw]
